import Mathlib

/-!
Verification development for the Aztec flush-bot repository.

The repository contains three near-duplicate program variants:
* `java.mjs` — genesis-timestamp epoch derivation, reactive flush, auto-claim
  with an over-ceiling warning branch;
* `unnamed/part_000` (first file) — slot-count epoch derivation via a rollup
  contract, a locally extrapolated clock (`getLocalTime`), four flush modes
  (`local`, `pre`, `block`, `local-pre`), an optional MEV-bundle fan-out
  submission path (`sendBundle`), and a window re-check inside `tryFlush`;
* `unnamed/part_001` — slot-count derivation, three flush modes
  (`local`, `pre`, `block`), direct submission only.

The definitions below are shallow embeddings of those functions.  On-chain
`uint256` values are modelled as `Nat`; JavaScript `Number` quantities that the
programs compare against fractional configuration values are modelled as `ℚ`
(the arithmetic the programs perform on them is exact on the rationals in all
modelled paths); epoch counters that are compared against the `-1n` sentinel
are modelled as `Int`.
-/

namespace AztecFlush

/-! ## Chain-time derivations (ChainTimeOracle) -/

/-- Constant `GENESIS_TIMESTAMP` from `java.mjs`. -/
def GENESIS_TIMESTAMP : Nat := 1733356800

/-- Constant `EPOCH_DURATION_SEC` from `java.mjs`. -/
def EPOCH_DURATION_SEC : Nat := 2304

/-- An epoch sample `{epochNumber, secondsIntoEpoch, epochDurationSeconds}`
as derived by the chain-time oracles. -/
structure EpochSample where
  epochNumber : Nat
  secondsIntoEpoch : Nat
  epochDurationSeconds : Nat
deriving DecidableEq, Repr

/-- `getEpochInfo` from `java.mjs` (genesis + fixed-duration model): on block
timestamp `ts`, throws (modelled as `none`) before genesis, otherwise returns
`epoch = ⌊(ts − genesis)/2304⌋`, `secondsIntoEpoch = (ts − genesis) % 2304`. -/
def getEpochInfo (blockTimestamp : Nat) : Option EpochSample :=
  if blockTimestamp < GENESIS_TIMESTAMP then none
  else
    some ⟨(blockTimestamp - GENESIS_TIMESTAMP) / EPOCH_DURATION_SEC,
          (blockTimestamp - GENESIS_TIMESTAMP) % EPOCH_DURATION_SEC,
          EPOCH_DURATION_SEC⟩

/-- `isEarly` as computed by `getEpochInfo` in `java.mjs`:
`secondsIntoEpoch < EPOCH_WINDOW_SEC` (strict). -/
def isEarly (s : EpochSample) (windowSec : Nat) : Bool :=
  s.secondsIntoEpoch < windowSec

/-- The slot-count derivation in `getOnChainState` (`part_000` and `part_001`):
`epochNum = currentSlot / slotsPerEpoch`, `slotsIntoEpoch = currentSlot %
slotsPerEpoch`, `secondsIntoEpoch = slotsIntoEpoch * slotDuration`,
`epochDurationSec = slotsPerEpoch * slotDuration`.  With `slotsPerEpoch = 0`
the JavaScript `BigInt` remainder throws (the guarded ternary covers only the
division), so the sample is not produced: modelled as `none`.  Arguments in the
order the contract values are read: current slot, slot duration, slots per
epoch. -/
def getOnChainSample (currentSlot slotDurationSec slotsPerEpoch : Nat) :
    Option EpochSample :=
  if slotsPerEpoch = 0 then none
  else
    some ⟨currentSlot / slotsPerEpoch,
          (currentSlot % slotsPerEpoch) * slotDurationSec,
          slotsPerEpoch * slotDurationSec⟩

/-- Modelled from the spec: the block-count derivation mode (`epochNumber =
blockNumber / blocksPerEpoch`, `secondsIntoEpoch = (blockNumber mod
blocksPerEpoch) × secondsPerBlock`) is described in §4.1 of the spec but the
variant implementing it is not among the files under `src/`; the duration and
the degenerate `blocksPerEpoch = 0` case follow the slot-count variant. -/
def blockCountSample (blockNumber secondsPerBlock blocksPerEpoch : Nat) :
    Option EpochSample :=
  if blocksPerEpoch = 0 then none
  else
    some ⟨blockNumber / blocksPerEpoch,
          (blockNumber % blocksPerEpoch) * secondsPerBlock,
          blocksPerEpoch * secondsPerBlock⟩

/-! ## The trigger scheduler (`run` in `part_000`) -/

/-- `FLUSH_MODE` of `part_000`: one of `local`, `pre`, `block`, `local-pre`. -/
inductive FlushMode
  | localMode
  | pre
  | block
  | localPre
deriving DecidableEq, Repr

/-- The per-tick time views consumed by the flush decision in `run`
(`part_000` lines 357–419): the on-chain epoch and seconds (and the epoch
duration, from which `onchainNextEpochIn = epochDuration − onchainSeconds` is
computed at line 368), and the extrapolated local view from `getLocalTime`. -/
structure TickView where
  onchainEpoch : Int
  onchainSeconds : ℚ
  epochDuration : ℚ
  localEpoch : Int
  localSeconds : ℚ
  localNextEpochIn : ℚ
deriving DecidableEq, Repr

/-- The `shouldFlush` / `targetEpoch` pair produced by one pass over the
mode dispatch in `run` (`part_000` lines 392–419). -/
structure FlushDecision where
  shouldFlush : Bool
  targetEpoch : Int
deriving DecidableEq, Repr

/-- The flush decision of `run` (`part_000` lines 392–419).  `targetEpoch` is
initialized to `onchainEpoch` and only overwritten inside the branch that also
sets `shouldFlush`. -/
def flushDecision (mode : FlushMode) (windowSec preSendSec : ℚ) (v : TickView)
    (lastFlushedEpoch : Int) : FlushDecision :=
  match mode with
  | .block =>
      if v.onchainSeconds ≤ windowSec ∧ v.onchainEpoch ≠ lastFlushedEpoch then
        ⟨true, v.onchainEpoch⟩
      else ⟨false, v.onchainEpoch⟩
  | .localMode =>
      if v.localSeconds ≤ windowSec ∧ v.localEpoch ≠ lastFlushedEpoch then
        ⟨true, v.localEpoch⟩
      else ⟨false, v.onchainEpoch⟩
  | .pre =>
      if v.epochDuration - v.onchainSeconds ≤ preSendSec ∧
          v.onchainEpoch ≠ lastFlushedEpoch then
        ⟨true, v.onchainEpoch + 1⟩
      else ⟨false, v.onchainEpoch⟩
  | .localPre =>
      if v.localNextEpochIn ≤ preSendSec ∧ v.localEpoch ≠ lastFlushedEpoch then
        ⟨true, v.localEpoch + 1⟩
      else ⟨false, v.onchainEpoch⟩

/-- One tick of the `lastFlushedEpoch` state (`part_000` lines 421–426): when
`shouldFlush` holds, `tryFlush(targetEpoch)` is awaited — its boolean result
`submitOk` is discarded — and `lastFlushedEpoch` is set to `targetEpoch`. -/
def runTick (mode : FlushMode) (windowSec preSendSec : ℚ) (v : TickView)
    (submitOk : Bool) (lastFlushedEpoch : Int) : Int :=
  let d := flushDecision mode windowSec preSendSec v lastFlushedEpoch
  if d.shouldFlush then d.targetEpoch else lastFlushedEpoch

/-- The trace of `lastFlushedEpoch` values over a sequence of ticks, each tick
given by its time views and the boolean its submission attempt returned. -/
def markTrace (mode : FlushMode) (windowSec preSendSec : ℚ)
    (lastFlushedEpoch : Int) : List (TickView × Bool) → List Int
  | [] => [lastFlushedEpoch]
  | t :: ts =>
      lastFlushedEpoch ::
        markTrace mode windowSec preSendSec
          (runTick mode windowSec preSendSec t.1 t.2 lastFlushedEpoch) ts

/-- The target epochs of the ticks that fire, over a sequence of ticks; a
firing tick also updates the mark threaded to the remaining ticks, exactly as
`runTick` does. -/
def firedTargets (mode : FlushMode) (windowSec preSendSec : ℚ)
    (lastFlushedEpoch : Int) : List (TickView × Bool) → List Int
  | [] => []
  | t :: ts =>
      if (flushDecision mode windowSec preSendSec t.1 lastFlushedEpoch).shouldFlush then
        (flushDecision mode windowSec preSendSec t.1 lastFlushedEpoch).targetEpoch ::
          firedTargets mode windowSec preSendSec
            (flushDecision mode windowSec preSendSec t.1 lastFlushedEpoch).targetEpoch ts
      else firedTargets mode windowSec preSendSec lastFlushedEpoch ts

/-! ## The trigger scheduler of the slot-based variant (`run` in `part_001`) -/

/-- `FLUSH_MODE` of `part_001`: only `local`, `pre`, `block` are accepted. -/
inductive FlushModeV1
  | localMode
  | pre
  | block
deriving DecidableEq, Repr

/-- One tick of `run` in `part_001` (lines 230–260): the decision per mode
(`local` falls back to the on-chain seconds), and on firing both the argument
passed to `tryFlush` and the new `lastFlushedEpoch` are `epochNum` — also in
`pre` mode.  Returns the new mark and `some target` when the tick fired. -/
def runTickV1 (mode : FlushModeV1) (windowSec preSendSec : Int)
    (epochNum secondsIntoEpoch secondsUntilNextEpoch lastFlushedEpoch : Int) :
    Int × Option Int :=
  let shouldFlush : Bool :=
    match mode with
    | .block => decide (secondsIntoEpoch ≤ windowSec ∧ epochNum ≠ lastFlushedEpoch)
    | .localMode => decide (secondsIntoEpoch ≤ windowSec ∧ epochNum ≠ lastFlushedEpoch)
    | .pre => decide (secondsUntilNextEpoch ≤ preSendSec ∧ epochNum ≠ lastFlushedEpoch)
  if shouldFlush then (epochNum, some epochNum) else (lastFlushedEpoch, none)

/-! ## Claim C1 -/

/-- C1: under policy ReactiveOnChain (`FLUSH_MODE 'block'`), for every on-chain
sample and `firedMark`, the scheduler fires iff `secondsIntoEpoch ≤
windowSeconds` and `epochNumber ≠ firedMark`, with `targetEpoch =
onChain.epochNumber`; at `secondsIntoEpoch = windowSeconds` it fires, at
`windowSeconds + 1` it does not.  Both slot-model variants (`part_000` and
`part_001`) are covered. -/
theorem C1_reactive_onchain (w p : ℚ) (v : TickView) (mark : Int)
    (w1 p1 e s u mk : Int) :
    ((flushDecision .block w p v mark).shouldFlush = true ↔
        v.onchainSeconds ≤ w ∧ v.onchainEpoch ≠ mark)
    ∧ (flushDecision .block w p v mark).targetEpoch = v.onchainEpoch
    ∧ (v.onchainSeconds = w → v.onchainEpoch ≠ mark →
        (flushDecision .block w p v mark).shouldFlush = true)
    ∧ (v.onchainSeconds = w + 1 →
        (flushDecision .block w p v mark).shouldFlush = false)
    ∧ ((runTickV1 .block w1 p1 e s u mk).2 = some e ↔
        s ≤ w1 ∧ e ≠ mk) := by
  refine ⟨?_, ?_, ?_, ?_, ?_⟩
  · by_cases h : v.onchainSeconds ≤ w ∧ v.onchainEpoch ≠ mark <;>
      simp [flushDecision, h]
  · by_cases h : v.onchainSeconds ≤ w ∧ v.onchainEpoch ≠ mark <;>
      simp [flushDecision, h]
  · intro h1 h2
    simp [flushDecision, h1, h2]
  · intro h1
    have : ¬ (v.onchainSeconds ≤ w ∧ v.onchainEpoch ≠ mark) := by
      rintro ⟨hle, -⟩
      rw [h1] at hle
      linarith
    simp [flushDecision, this]
  · by_cases h : s ≤ w1 ∧ e ≠ mk <;> simp [runTickV1, h]

/-- Witness for C1 at the spec's example: `windowSeconds = 15`, sample
`{epochNumber: 7, secondsIntoEpoch: 10}`, `firedMark = 6` fires with target 7;
at `secondsIntoEpoch = 16 = 15 + 1` it does not fire. -/
theorem C1_reactive_onchain_witness :
    (flushDecision .block 15 5 ⟨7, 10, 2304, 7, 10, 2294⟩ 6).shouldFlush = true
    ∧ (flushDecision .block 15 5 ⟨7, 10, 2304, 7, 10, 2294⟩ 6).targetEpoch = 7
    ∧ (flushDecision .block 15 5 ⟨7, 16, 2304, 7, 16, 2288⟩ 6).shouldFlush
        = false :=
  ⟨(C1_reactive_onchain 15 5 ⟨7, 10, 2304, 7, 10, 2294⟩ 6 15 5 7 10 2294 6).1.mpr
      (by constructor <;> norm_num),
   (C1_reactive_onchain 15 5 ⟨7, 10, 2304, 7, 10, 2294⟩ 6 15 5 7 10 2294 6).2.1,
   (C1_reactive_onchain 15 5 ⟨7, 16, 2304, 7, 16, 2288⟩ 6 15 5 7 16 2288 6).2.2.2.1
      (by norm_num)⟩

/-! ## Claim C2 -/

/-- C2 counterexample: in the slot-based variant (`part_001`), a `pre`-mode
tick with `leadSeconds = 5`, sample `{epochNumber: 7, secondsUntilNextEpoch:
4}` and `firedMark = 6` fires, but the submitter is invoked with epoch `7` and
`firedMark` becomes `7` — not the claimed `targetEpoch = epochNumber + 1 = 8`. -/
theorem C2_counterexample :
    runTickV1 .pre 15 5 7 2300 4 6 = (7, some 7) ∧ (7 : Int) ≠ 8 := by
  constructor
  · rfl
  · decide

/-- C2 amended: under `FLUSH_MODE 'pre'` the scheduler fires exactly when
`secondsUntilNextEpoch ≤ leadSeconds` and `epochNumber ≠ firedMark`; in the
dynamic-sync variant (`part_000`) the fired target is `epochNumber + 1` and
`firedMark` is then set to `epochNumber + 1`, while in the slot-based variant
(`part_001`) the submitter is invoked with `epochNumber` and `firedMark` is
set to `epochNumber`, not `epochNumber + 1`. -/
theorem C2_amended (w p : ℚ) (v : TickView) (mark : Int)
    (w1 p1 e s u mk : Int) :
    ((flushDecision .pre w p v mark).shouldFlush = true ↔
        v.epochDuration - v.onchainSeconds ≤ p ∧ v.onchainEpoch ≠ mark)
    ∧ ((flushDecision .pre w p v mark).shouldFlush = true →
        (flushDecision .pre w p v mark).targetEpoch = v.onchainEpoch + 1
        ∧ ∀ ok : Bool, runTick .pre w p v ok mark = v.onchainEpoch + 1)
    ∧ ((runTickV1 .pre w1 p1 e s u mk).2 ≠ none ↔ u ≤ p1 ∧ e ≠ mk)
    ∧ (u ≤ p1 → e ≠ mk → runTickV1 .pre w1 p1 e s u mk = (e, some e)) := by
  refine ⟨?_, ?_, ?_, ?_⟩
  · by_cases h : v.epochDuration ≤ p + v.onchainSeconds ∧ v.onchainEpoch ≠ mark <;>
      simp [flushDecision, sub_le_iff_le_add, h]
  · intro hfire
    by_cases h : v.epochDuration ≤ p + v.onchainSeconds ∧ v.onchainEpoch ≠ mark
    · exact ⟨by simp [flushDecision, sub_le_iff_le_add, h],
        fun ok => by simp [runTick, flushDecision, sub_le_iff_le_add, h]⟩
    · exfalso
      simp [flushDecision, sub_le_iff_le_add, h] at hfire
  · by_cases h : u ≤ p1 ∧ e ≠ mk <;> simp [runTickV1, h]
  · intro h1 h2
    simp [runTickV1, h1, h2]

/-- Witness for C2 amended at the spec's example (`leadSeconds = 5`, epoch 7,
4 s until next epoch, `firedMark = 6`): the dynamic-sync variant fires with
target 8, the slot-based variant fires with target 7. -/
theorem C2_amended_witness :
    ((flushDecision .pre 15 5 ⟨7, 2300, 2304, 7, 2300, 4⟩ 6).shouldFlush = true
      ∧ ∀ ok : Bool, runTick .pre 15 5 ⟨7, 2300, 2304, 7, 2300, 4⟩ ok 6 = 8)
    ∧ runTickV1 .pre 15 5 7 2300 4 6 = (7, some 7) := by
  have h := C2_amended 15 5 ⟨7, 2300, 2304, 7, 2300, 4⟩ 6 15 5 7 2300 4 6
  have hfire : (flushDecision .pre 15 5 ⟨7, 2300, 2304, 7, 2300, 4⟩ 6).shouldFlush
      = true := h.1.mpr (by constructor <;> norm_num)
  exact ⟨⟨hfire, fun ok => by
      simpa using (h.2.1 hfire).2 ok⟩,
    h.2.2.2 (by norm_num) (by norm_num)⟩

/-! ## Claim C3 -/

/-- C3 counterexample: a `block`-mode tick that fires (window 15, epoch 7,
10 s in, `firedMark = 6`) and whose submission attempt reports failure
(`submitOk = false`) still advances `firedMark` to 7 — the code sets
`lastFlushedEpoch = targetEpoch` unconditionally after `tryFlush`, so a later
tick in the same window does not retry, contrary to the claim. -/
theorem C3_counterexample :
    runTick .block 15 5 ⟨7, 10, 2304, 7, 10, 2294⟩ false 6 = 7
    ∧ (7 : Int) ≠ 6 := by
  constructor
  · rfl
  · decide

/-- C3 amended: whenever the scheduler fires, `firedMark` is advanced to
`targetEpoch` regardless of whether the submission attempt succeeded or
failed (the boolean returned by `tryFlush` is discarded); in particular a
transiently failed submission is not retried — in `block` mode a later tick
observing the same epoch no longer fires. -/
theorem C3_amended (mode : FlushMode) (w p : ℚ) (v : TickView) (mark : Int) :
    (∀ a b : Bool, runTick mode w p v a mark = runTick mode w p v b mark)
    ∧ ((flushDecision mode w p v mark).shouldFlush = true →
        ∀ ok : Bool,
          runTick mode w p v ok mark = (flushDecision mode w p v mark).targetEpoch)
    ∧ (∀ v2 : TickView, v2.onchainEpoch = v.onchainEpoch →
        (flushDecision .block w p v mark).shouldFlush = true →
        (flushDecision .block w p v2
            (runTick .block w p v false mark)).shouldFlush = false) := by
  refine ⟨fun a b => rfl, ?_, ?_⟩
  · intro hfire ok
    simp [runTick, hfire]
  · intro v2 hsame hfire
    by_cases h : v.onchainSeconds ≤ w ∧ v.onchainEpoch ≠ mark
    · have hmark : runTick .block w p v false mark = v.onchainEpoch := by
        simp [runTick, flushDecision, h]
      rw [hmark]
      simp [flushDecision, hsame]
    · simp [flushDecision, h] at hfire

/-- Witness for C3 amended: concrete firing tick (window 15, epoch 7, 10 s in,
mark 6); the mark moves to 7 for both submission outcomes and a second tick in
the same epoch does not fire. -/
theorem C3_amended_witness :
    runTick .block 15 5 ⟨7, 10, 2304, 7, 10, 2294⟩ false 6
      = runTick .block 15 5 ⟨7, 10, 2304, 7, 10, 2294⟩ true 6
    ∧ runTick .block 15 5 ⟨7, 10, 2304, 7, 10, 2294⟩ false 6
      = (flushDecision .block 15 5 ⟨7, 10, 2304, 7, 10, 2294⟩ 6).targetEpoch
    ∧ (flushDecision .block 15 5 ⟨7, 12, 2304, 7, 12, 2292⟩
        (runTick .block 15 5 ⟨7, 10, 2304, 7, 10, 2294⟩ false 6)).shouldFlush
        = false := by
  have h := C3_amended .block 15 5 ⟨7, 10, 2304, 7, 10, 2294⟩ 6
  have hfire : (flushDecision .block 15 5 ⟨7, 10, 2304, 7, 10, 2294⟩ 6).shouldFlush
      = true := by norm_num [flushDecision]
  exact ⟨h.1 false true, h.2.1 hfire false,
    h.2.2 ⟨7, 12, 2304, 7, 12, 2292⟩ rfl hfire⟩

/-! ## Claim C4: helper lemmas on tick sequences -/

/-- A `block`-mode tick either keeps the mark or moves it to the sample's
epoch number. -/
theorem runTickBlockCases (w p : ℚ) (v : TickView) (ok : Bool) (mark : Int) :
    runTick .block w p v ok mark = mark ∨
      runTick .block w p v ok mark = v.onchainEpoch := by
  by_cases h : v.onchainSeconds ≤ w ∧ v.onchainEpoch ≠ mark
  · exact Or.inr (by simp [runTick, flushDecision, h])
  · exact Or.inl (by simp [runTick, flushDecision, h])

/-- A `pre`-mode tick either keeps the mark or moves it to the sample's epoch
number plus one. -/
theorem runTickPreCases (w p : ℚ) (v : TickView) (ok : Bool) (mark : Int) :
    runTick .pre w p v ok mark = mark ∨
      runTick .pre w p v ok mark = v.onchainEpoch + 1 := by
  by_cases h : v.epochDuration ≤ p + v.onchainSeconds ∧ v.onchainEpoch ≠ mark
  · exact Or.inr (by simp [runTick, flushDecision, sub_le_iff_le_add, h])
  · exact Or.inl (by simp [runTick, flushDecision, sub_le_iff_le_add, h])

/-- Every mark in the trace is at least the initial mark, provided each tick
can only move the mark to its sample's epoch plus a fixed offset, the samples'
epochs are non-decreasing, and the initial mark is below them all. -/
theorem markTraceLB (mode : FlushMode) (w p : ℚ) (o : Int)
    (hstep : ∀ (v : TickView) (ok : Bool) (m : Int),
      runTick mode w p v ok m = m ∨ runTick mode w p v ok m = v.onchainEpoch + o) :
    ∀ (ticks : List (TickView × Bool)) (mark : Int),
      (∀ t ∈ ticks, mark ≤ t.1.onchainEpoch + o) →
      List.Pairwise (· ≤ ·) (ticks.map fun t => t.1.onchainEpoch) →
      ∀ x ∈ markTrace mode w p mark ticks, mark ≤ x := by
  intro ticks
  induction ticks with
  | nil =>
      intro mark _ _ x hx
      simp [markTrace] at hx
      simp [hx]
  | cons t ts ih =>
      intro mark hlb hpw x hx
      rw [markTrace] at hx
      rcases List.mem_cons.mp hx with rfl | hx2
      · exact le_refl x
      · rw [List.map_cons] at hpw
        have hpwc := List.pairwise_cons.mp hpw
        have hm2le : mark ≤ runTick mode w p t.1 t.2 mark := by
          rcases hstep t.1 t.2 mark with he | he
          · rw [he]
          · rw [he]
            exact hlb t (List.mem_cons_self t ts)
        have htail : ∀ u ∈ ts,
            runTick mode w p t.1 t.2 mark ≤ u.1.onchainEpoch + o := by
          intro u hu
          rcases hstep t.1 t.2 mark with he | he
          · rw [he]
            exact hlb u (List.mem_cons_of_mem t hu)
          · rw [he]
            have : t.1.onchainEpoch ≤ u.1.onchainEpoch :=
              hpwc.1 u.1.onchainEpoch (List.mem_map_of_mem _ hu)
            omega
        exact le_trans hm2le (ih (runTick mode w p t.1 t.2 mark) htail hpwc.2 x hx2)

/-- Under the hypotheses of `markTraceLB`, the whole mark trace is
non-decreasing. -/
theorem markTraceSorted (mode : FlushMode) (w p : ℚ) (o : Int)
    (hstep : ∀ (v : TickView) (ok : Bool) (m : Int),
      runTick mode w p v ok m = m ∨ runTick mode w p v ok m = v.onchainEpoch + o) :
    ∀ (ticks : List (TickView × Bool)) (mark : Int),
      (∀ t ∈ ticks, mark ≤ t.1.onchainEpoch + o) →
      List.Pairwise (· ≤ ·) (ticks.map fun t => t.1.onchainEpoch) →
      List.Pairwise (· ≤ ·) (markTrace mode w p mark ticks) := by
  intro ticks
  induction ticks with
  | nil =>
      intro mark _ _
      simp [markTrace]
  | cons t ts ih =>
      intro mark hlb hpw
      rw [List.map_cons] at hpw
      have hpwc := List.pairwise_cons.mp hpw
      have hm2le : mark ≤ runTick mode w p t.1 t.2 mark := by
        rcases hstep t.1 t.2 mark with he | he
        · rw [he]
        · rw [he]
          exact hlb t (List.mem_cons_self t ts)
      have htail : ∀ u ∈ ts,
          runTick mode w p t.1 t.2 mark ≤ u.1.onchainEpoch + o := by
        intro u hu
        rcases hstep t.1 t.2 mark with he | he
        · rw [he]
          exact hlb u (List.mem_cons_of_mem t hu)
        · rw [he]
          have : t.1.onchainEpoch ≤ u.1.onchainEpoch :=
            hpwc.1 u.1.onchainEpoch (List.mem_map_of_mem _ hu)
          omega
      rw [markTrace]
      refine List.pairwise_cons.mpr ⟨?_, ih (runTick mode w p t.1 t.2 mark) htail hpwc.2⟩
      intro x hx
      exact le_trans hm2le
        (markTraceLB mode w p o hstep ts (runTick mode w p t.1 t.2 mark) htail hpwc.2 x hx)

/-- In `block` mode, every fired target is strictly above the mark current
when the run reached it. -/
theorem firedTargetsLB (w p : ℚ) :
    ∀ (ticks : List (TickView × Bool)) (mark : Int),
      (∀ t ∈ ticks, mark ≤ t.1.onchainEpoch) →
      List.Pairwise (· ≤ ·) (ticks.map fun t => t.1.onchainEpoch) →
      ∀ y ∈ firedTargets .block w p mark ticks, mark < y := by
  intro ticks
  induction ticks with
  | nil =>
      intro mark _ _ y hy
      simp [firedTargets] at hy
  | cons t ts ih =>
      intro mark hlb hpw y hy
      rw [List.map_cons] at hpw
      have hpwc := List.pairwise_cons.mp hpw
      have hepochs : ∀ u ∈ ts, t.1.onchainEpoch ≤ u.1.onchainEpoch := by
        intro u hu
        exact hpwc.1 u.1.onchainEpoch (List.mem_map_of_mem _ hu)
      by_cases h : t.1.onchainSeconds ≤ w ∧ t.1.onchainEpoch ≠ mark
      · have hd : flushDecision .block w p t.1 mark = ⟨true, t.1.onchainEpoch⟩ := by
          simp [flushDecision, h]
        have hy2 : y ∈ t.1.onchainEpoch :: firedTargets .block w p t.1.onchainEpoch ts := by
          rw [firedTargets, hd] at hy
          simpa using hy
        have hmarklt : mark < t.1.onchainEpoch :=
          lt_of_le_of_ne (hlb t (List.mem_cons_self t ts)) (Ne.symm h.2)
        rcases List.mem_cons.mp hy2 with rfl | hy3
        · exact hmarklt
        · exact lt_trans hmarklt (ih t.1.onchainEpoch hepochs hpwc.2 y hy3)
      · have hd : flushDecision .block w p t.1 mark = ⟨false, t.1.onchainEpoch⟩ := by
          simp [flushDecision, h]
        have hy2 : y ∈ firedTargets .block w p mark ts := by
          rw [firedTargets, hd] at hy
          simpa using hy
        exact ih mark (fun u hu => hlb u (List.mem_cons_of_mem t hu)) hpwc.2 y hy2

/-- In `block` mode the fired targets are strictly increasing: once the mark
has been advanced to a fired epoch, every later fire must target a strictly
larger epoch. -/
theorem firedTargetsSorted (w p : ℚ) :
    ∀ (ticks : List (TickView × Bool)) (mark : Int),
      (∀ t ∈ ticks, mark ≤ t.1.onchainEpoch) →
      List.Pairwise (· ≤ ·) (ticks.map fun t => t.1.onchainEpoch) →
      List.Pairwise (· < ·) (firedTargets .block w p mark ticks) := by
  intro ticks
  induction ticks with
  | nil =>
      intro mark _ _
      simp [firedTargets]
  | cons t ts ih =>
      intro mark hlb hpw
      rw [List.map_cons] at hpw
      have hpwc := List.pairwise_cons.mp hpw
      have hepochs : ∀ u ∈ ts, t.1.onchainEpoch ≤ u.1.onchainEpoch := by
        intro u hu
        exact hpwc.1 u.1.onchainEpoch (List.mem_map_of_mem _ hu)
      by_cases h : t.1.onchainSeconds ≤ w ∧ t.1.onchainEpoch ≠ mark
      · have hd : flushDecision .block w p t.1 mark = ⟨true, t.1.onchainEpoch⟩ := by
          simp [flushDecision, h]
        have heq : firedTargets .block w p mark (t :: ts)
            = t.1.onchainEpoch :: firedTargets .block w p t.1.onchainEpoch ts := by
          rw [firedTargets, hd]
          simp
        rw [heq]
        exact List.pairwise_cons.mpr
          ⟨firedTargetsLB w p ts t.1.onchainEpoch hepochs hpwc.2,
           ih t.1.onchainEpoch hepochs hpwc.2⟩
      · have hd : flushDecision .block w p t.1 mark = ⟨false, t.1.onchainEpoch⟩ := by
          simp [flushDecision, h]
        have heq : firedTargets .block w p mark (t :: ts)
            = firedTargets .block w p mark ts := by
          rw [firedTargets, hd]
          simp
        rw [heq]
        exact ih mark (fun u hu => hlb u (List.mem_cons_of_mem t hu)) hpwc.2

/-! ## Claim C4 -/

/-- C4 counterexample.  First conjunct: in `pre` mode (lead 5 s, epoch
duration 100 s) two consecutive ticks inside the same lead window of epoch 7
both fire, both targeting epoch 8 — the guard compares the sample's epoch, not
the target, against `firedMark`, so the run fires twice for the same target
epoch.  Second conjunct: with a stale, decreasing on-chain sample (epoch 10
then epoch 7, both at their window start) the `firedMark` trace
`[-1, 10, 7]` is not monotonically non-decreasing. -/
theorem C4_counterexample :
    firedTargets .pre 7 5 (-1)
        [(⟨7, 95, 100, 7, 95, 5⟩, true), (⟨7, 96, 100, 7, 96, 4⟩, true)] = [8, 8]
    ∧ ¬ List.Pairwise (fun a b => a ≠ b)
        (firedTargets .pre 7 5 (-1)
          [(⟨7, 95, 100, 7, 95, 5⟩, true), (⟨7, 96, 100, 7, 96, 4⟩, true)])
    ∧ markTrace .block 15 5 (-1)
        [(⟨10, 0, 2304, 10, 0, 2304⟩, true), (⟨7, 0, 2304, 7, 0, 2304⟩, true)]
        = [-1, 10, 7]
    ∧ ¬ List.Pairwise (· ≤ ·)
        (markTrace .block 15 5 (-1)
          [(⟨10, 0, 2304, 10, 0, 2304⟩, true), (⟨7, 0, 2304, 7, 0, 2304⟩, true)]) := by
  have hd1 : flushDecision .pre 7 5 ⟨7, 95, 100, 7, 95, 5⟩ (-1) = ⟨true, 8⟩ := by
    norm_num [flushDecision]
  have hd2 : flushDecision .pre 7 5 ⟨7, 96, 100, 7, 96, 4⟩ 8 = ⟨true, 8⟩ := by
    norm_num [flushDecision]
  have hfired : firedTargets .pre 7 5 (-1)
      [(⟨7, 95, 100, 7, 95, 5⟩, true), (⟨7, 96, 100, 7, 96, 4⟩, true)] = [8, 8] := by
    simp [firedTargets, hd1, hd2]
  have hr1 : runTick .block 15 5 ⟨10, 0, 2304, 10, 0, 2304⟩ true (-1) = 10 := by
    norm_num [runTick, flushDecision]
  have hr2 : runTick .block 15 5 ⟨7, 0, 2304, 7, 0, 2304⟩ true 10 = 7 := by
    norm_num [runTick, flushDecision]
  have htrace : markTrace .block 15 5 (-1)
      [(⟨10, 0, 2304, 10, 0, 2304⟩, true), (⟨7, 0, 2304, 7, 0, 2304⟩, true)]
      = [-1, 10, 7] := by
    simp [markTrace, hr1, hr2]
  refine ⟨hfired, ?_, htrace, ?_⟩
  · rw [hfired]
    decide
  · rw [htrace]
    decide

/-- C4 amended: provided the on-chain epoch samples are non-decreasing across
the run and the initial `firedMark` lies below them, `firedMark` is
monotonically non-decreasing under both on-chain policies (`block` and `pre`);
under `block` the fired targets are strictly increasing, so no two fires
target the same epoch — but under `pre` two ticks in the same lead window can
fire for the same target epoch, and with decreasing (stale) samples the mark
itself can decrease. -/
theorem C4_amended (w p : ℚ) (mark : Int) (ticks : List (TickView × Bool))
    (hpw : List.Pairwise (· ≤ ·) (ticks.map fun t => t.1.onchainEpoch))
    (hmark : ∀ t ∈ ticks, mark ≤ t.1.onchainEpoch) :
    List.Pairwise (· ≤ ·) (markTrace .block w p mark ticks)
    ∧ List.Pairwise (· ≤ ·) (markTrace .pre w p mark ticks)
    ∧ List.Pairwise (· < ·) (firedTargets .block w p mark ticks) := by
  refine ⟨?_, ?_, ?_⟩
  · refine markTraceSorted .block w p 0 ?_ ticks mark ?_ hpw
    · intro v ok m
      rcases runTickBlockCases w p v ok m with h | h
      · exact Or.inl h
      · exact Or.inr (by omega)
    · intro t ht
      have := hmark t ht
      omega
  · refine markTraceSorted .pre w p 1 ?_ ticks mark ?_ hpw
    · intro v ok m
      exact runTickPreCases w p v ok m
    · intro t ht
      have := hmark t ht
      omega
  · exact firedTargetsSorted w p ticks mark hmark hpw

/-- Witness for C4 amended on a concrete run: epochs `[7, 8]` (non-decreasing),
initial mark `-1`; the mark traces are non-decreasing and the `block`-mode
fired targets strictly increase. -/
theorem C4_amended_witness :
    List.Pairwise (· ≤ ·)
      (([(⟨7, 10, 2304, 7, 10, 2294⟩, true), (⟨8, 3, 2304, 8, 3, 2301⟩, false)]
          : List (TickView × Bool)).map fun t => t.1.onchainEpoch)
    ∧ (∀ t ∈ ([(⟨7, 10, 2304, 7, 10, 2294⟩, true),
          (⟨8, 3, 2304, 8, 3, 2301⟩, false)] : List (TickView × Bool)),
        (-1 : Int) ≤ t.1.onchainEpoch)
    ∧ List.Pairwise (· ≤ ·)
        (markTrace .block 15 5 (-1)
          [(⟨7, 10, 2304, 7, 10, 2294⟩, true), (⟨8, 3, 2304, 8, 3, 2301⟩, false)])
    ∧ List.Pairwise (· < ·)
        (firedTargets .block 15 5 (-1)
          [(⟨7, 10, 2304, 7, 10, 2294⟩, true), (⟨8, 3, 2304, 8, 3, 2301⟩, false)]) :=
  ⟨by norm_num [List.pairwise_cons], by norm_num,
   (C4_amended 15 5 (-1)
      [(⟨7, 10, 2304, 7, 10, 2294⟩, true), (⟨8, 3, 2304, 8, 3, 2301⟩, false)]
      (by norm_num [List.pairwise_cons]) (by norm_num)).1,
   (C4_amended 15 5 (-1)
      [(⟨7, 10, 2304, 7, 10, 2294⟩, true), (⟨8, 3, 2304, 8, 3, 2301⟩, false)]
      (by norm_num [List.pairwise_cons]) (by norm_num)).2.2⟩

/-! ## Claim C5 -/

/-- C5 counterexample: the slot-count derivation does not validate the slot
duration; with `currentSlot = 5`, `slotDuration = 0`, `slotsPerEpoch = 3` it
successfully produces the sample `⟨1, 0, 0⟩`, whose `secondsIntoEpoch` is not
strictly below its `epochDurationSeconds`. -/
theorem C5_counterexample :
    getOnChainSample 5 0 3 = some ⟨1, 0, 0⟩
    ∧ ¬ ((⟨1, 0, 0⟩ : EpochSample).secondsIntoEpoch
          < (⟨1, 0, 0⟩ : EpochSample).epochDurationSeconds) := by
  constructor
  · rw [getOnChainSample, if_neg (by norm_num)]
  · decide

/-- C5 amended: every sample produced by the genesis derivation satisfies
`secondsIntoEpoch < epochDurationSeconds` (with the fixed duration 2304); the
slot-count and block-count derivations satisfy it provided the reported slot
duration (resp. seconds per block) is positive — the code never checks this;
an elapsed time of exactly one duration rolls to the next epoch with
`secondsIntoEpoch = 0` in all derivations. -/
theorem C5_amended :
    (∀ ts s, getEpochInfo ts = some s →
        s.secondsIntoEpoch < s.epochDurationSeconds
        ∧ s.epochDurationSeconds = EPOCH_DURATION_SEC)
    ∧ (∀ slot sd spe s, 0 < sd → getOnChainSample slot sd spe = some s →
        s.secondsIntoEpoch < s.epochDurationSeconds)
    ∧ (∀ bn spb bpe s, 0 < spb → blockCountSample bn spb bpe = some s →
        s.secondsIntoEpoch < s.epochDurationSeconds)
    ∧ (∀ n : Nat, getEpochInfo (GENESIS_TIMESTAMP + (n + 1) * EPOCH_DURATION_SEC)
        = some ⟨n + 1, 0, EPOCH_DURATION_SEC⟩)
    ∧ (∀ sd spe, spe ≠ 0 → getOnChainSample spe sd spe = some ⟨1, 0, spe * sd⟩) := by
  refine ⟨?_, ?_, ?_, ?_, ?_⟩
  · intro ts s h
    rw [getEpochInfo] at h
    by_cases hlt : ts < GENESIS_TIMESTAMP
    · rw [if_pos hlt] at h
      exact absurd h (by simp)
    · rw [if_neg hlt] at h
      cases h
      exact ⟨Nat.mod_lt _ (by norm_num [EPOCH_DURATION_SEC]), rfl⟩
  · intro slot sd spe s hsd h
    rw [getOnChainSample] at h
    by_cases hspe : spe = 0
    · rw [if_pos hspe] at h
      exact absurd h (by simp)
    · rw [if_neg hspe] at h
      cases h
      exact mul_lt_mul_of_pos_right (Nat.mod_lt _ (Nat.pos_of_ne_zero hspe)) hsd
  · intro bn spb bpe s hspb h
    rw [blockCountSample] at h
    by_cases hbpe : bpe = 0
    · rw [if_pos hbpe] at h
      exact absurd h (by simp)
    · rw [if_neg hbpe] at h
      cases h
      exact mul_lt_mul_of_pos_right (Nat.mod_lt _ (Nat.pos_of_ne_zero hbpe)) hspb
  · intro n
    rw [getEpochInfo,
      if_neg (by unfold GENESIS_TIMESTAMP EPOCH_DURATION_SEC; omega)]
    have hsub : GENESIS_TIMESTAMP + (n + 1) * EPOCH_DURATION_SEC - GENESIS_TIMESTAMP
        = (n + 1) * EPOCH_DURATION_SEC := by omega
    rw [hsub]
    have hd : 0 < EPOCH_DURATION_SEC := by norm_num [EPOCH_DURATION_SEC]
    rw [Nat.mul_div_cancel _ hd, Nat.mul_mod_left]
  · intro sd spe h
    rw [getOnChainSample, if_neg h]
    simp [Nat.div_self (Nat.pos_of_ne_zero h), Nat.mod_self]

/-- Witness for C5 amended: the slot-count derivation at slot 100, slot
duration 12, 32 slots per epoch yields the sample `⟨3, 48, 384⟩`, and its
`secondsIntoEpoch` is below its duration; one full epoch of slots rolls to
epoch 1 at seconds 0. -/
theorem C5_amended_witness :
    getOnChainSample 100 12 32 = some ⟨3, 48, 384⟩
    ∧ (⟨3, 48, 384⟩ : EpochSample).secondsIntoEpoch
        < (⟨3, 48, 384⟩ : EpochSample).epochDurationSeconds
    ∧ getOnChainSample 32 12 32 = some ⟨1, 0, 384⟩ :=
  ⟨by rw [getOnChainSample, if_neg (by norm_num)],
   C5_amended.2.1 100 12 32 ⟨3, 48, 384⟩ (by norm_num)
     (by rw [getOnChainSample, if_neg (by norm_num)]),
   C5_amended.2.2.2.2 12 32 (by norm_num)⟩

/-! ## Claim C6: the locally extrapolated clock (`getLocalTime`, `part_000`) -/

/-- The mutable local-clock anchor of `part_000` (lines 76–79):
`localStartTimeMs`, `localEpochStartSec`, `localEpochDurationSec`,
`localCurrentEpoch`. -/
structure LocalState where
  startTimeMs : ℚ
  epochStartSec : ℚ
  epochDurationSec : ℚ
  currentEpoch : Int
deriving DecidableEq, Repr

/-- The view returned by `getLocalTime` (`part_000` lines 128–151). -/
structure LocalView where
  seconds : ℚ
  nextEpochIn : ℚ
  epoch : Int
deriving DecidableEq, Repr

/-- `getLocalTime` from `part_000` lines 128–151, as a pure function of the
anchor state and the current wall-clock time in milliseconds; it returns the
view together with the (possibly mutated) anchor.  The rollover branch
subtracts `epochsPassed * duration` from `localEpochStartSec`, resets
`localStartTimeMs` so that the elapsed time equals `secondsInCurrentEpoch mod
duration` (for the values reached here the JavaScript `%` equals
`s − ⌊s / duration⌋ * duration`), and re-enters itself; the re-entry re-reads
the clock, which is modelled as the same `nowMs`.  The JavaScript recursion is
unbounded, so the embedding carries an explicit recursion budget; `none` means
the budget was exhausted. -/
def getLocalTimeFuel : Nat → LocalState → ℚ → Option (LocalView × LocalState)
  | 0, _, _ => none
  | fuel + 1, st, nowMs =>
      if st.startTimeMs = 0 then
        some (⟨0, st.epochDurationSec, st.currentEpoch⟩, st)
      else if st.epochDurationSec ≤ st.epochStartSec + (nowMs - st.startTimeMs) / 1000 then
        getLocalTimeFuel fuel
          ⟨nowMs - (st.epochStartSec + (nowMs - st.startTimeMs) / 1000
              - (⌊(st.epochStartSec + (nowMs - st.startTimeMs) / 1000)
                  / st.epochDurationSec⌋ : Int) * st.epochDurationSec) * 1000,
           st.epochStartSec
             - (⌊(st.epochStartSec + (nowMs - st.startTimeMs) / 1000)
                 / st.epochDurationSec⌋ : Int) * st.epochDurationSec,
           st.epochDurationSec,
           st.currentEpoch
             + ⌊(st.epochStartSec + (nowMs - st.startTimeMs) / 1000)
                 / st.epochDurationSec⌋⟩
          nowMs
      else
        some (⟨st.epochStartSec + (nowMs - st.startTimeMs) / 1000,
               st.epochDurationSec - (st.epochStartSec + (nowMs - st.startTimeMs) / 1000),
               st.currentEpoch⟩, st)

/-- Unfolding lemma for one unit of recursion budget. -/
theorem getLocalTimeFuelSucc (fuel : Nat) (st : LocalState) (nowMs : ℚ) :
    getLocalTimeFuel (fuel + 1) st nowMs =
      if st.startTimeMs = 0 then
        some (⟨0, st.epochDurationSec, st.currentEpoch⟩, st)
      else if st.epochDurationSec ≤ st.epochStartSec + (nowMs - st.startTimeMs) / 1000 then
        getLocalTimeFuel fuel
          ⟨nowMs - (st.epochStartSec + (nowMs - st.startTimeMs) / 1000
              - (⌊(st.epochStartSec + (nowMs - st.startTimeMs) / 1000)
                  / st.epochDurationSec⌋ : Int) * st.epochDurationSec) * 1000,
           st.epochStartSec
             - (⌊(st.epochStartSec + (nowMs - st.startTimeMs) / 1000)
                 / st.epochDurationSec⌋ : Int) * st.epochDurationSec,
           st.epochDurationSec,
           st.currentEpoch
             + ⌊(st.epochStartSec + (nowMs - st.startTimeMs) / 1000)
                 / st.epochDurationSec⌋⟩
          nowMs
      else
        some (⟨st.epochStartSec + (nowMs - st.startTimeMs) / 1000,
               st.epochDurationSec - (st.epochStartSec + (nowMs - st.startTimeMs) / 1000),
               st.currentEpoch⟩, st) := rfl

/-- C6, evaluated at the failing input: anchor at an epoch start
(`startTimeMs = 1000`, `epochStartSec = 0`, duration 100 s, epoch 5) and an
extrapolation 150 s later.  The rollover advances the epoch by 1 (as the claim
says) but returns `secondsIntoEpoch = −50`, not the carried remainder 50: the
rollover both subtracts `epochsPassed * duration` from `localEpochStartSec`
and resets `localStartTimeMs` to account for the remainder, so the epoch-start
seconds are subtracted twice. -/
theorem C6_code_bug :
    getLocalTimeFuel 2 ⟨1000, 0, 100, 5⟩ 151000
      = some (⟨-50, 150, 6⟩, ⟨101000, -100, 100, 6⟩)
    ∧ ((-50 : ℚ) ≠ 50 ∧ (-50 : ℚ) < 0) := by
  have hfl : (⌊(3 / 2 : ℚ)⌋ : Int) = 1 := by
    rw [Int.floor_eq_iff] <;> norm_num
  have h1 : getLocalTimeFuel 2 ⟨1000, 0, 100, 5⟩ 151000
      = getLocalTimeFuel 1 ⟨101000, -100, 100, 6⟩ 151000 := by
    rw [show (2 : Nat) = 1 + 1 from rfl, getLocalTimeFuelSucc,
      if_neg (by norm_num), if_pos (by norm_num)]
    norm_num [hfl]
  have h2 : getLocalTimeFuel 1 ⟨101000, -100, 100, 6⟩ 151000
      = some (⟨-50, 150, 6⟩, ⟨101000, -100, 100, 6⟩) := by
    rw [show (1 : Nat) = 0 + 1 from rfl, getLocalTimeFuelSucc,
      if_neg (by norm_num), if_neg (by norm_num)]
    norm_num
  exact ⟨h1.trans h2, by norm_num, by norm_num⟩

/-! ## The fan-out submitter (`sendBundle` / `tryFlush` in `part_000`) -/

/-- `sendBundle` (`part_000` lines 165–190) posts the bundle to every builder
relay via `Promise.allSettled`, each relay wrapped in its own try/catch with
its own timeout, and counts the relays that accepted:
`successCount = results.filter(success).length`.  The count is only logged;
`sendBundle` returns nothing to its caller. -/
def sendBundleSuccessCount (relayAccepted : List Bool) : Nat :=
  (relayAccepted.filter (fun r => r)).length

/-- Outcome of one `tryFlush` invocation in `part_000`: whether a transaction
or bundle was dispatched, and the boolean `tryFlush` returned. -/
structure TryFlushResult where
  dispatched : Bool
  result : Bool
deriving DecidableEq, Repr

/-- `tryFlush` of `part_000` (lines 192–260): it re-reads the rollup clock
(current slot, slots per epoch via `getEpochDuration`, slot duration); with
`slotsPerEpoch = 0` the `BigInt` remainder throws and the catch returns
`false` with nothing dispatched; if the freshly read `secondsInto` exceeds the
window it returns `false` without dispatching; otherwise it dispatches — the
MEV-bundle path then returns `true` unconditionally (the relay acceptances are
only counted and logged by `sendBundle`), and the direct path returns whether
the reward delta was positive (`directEarnedPos`). -/
def tryFlushP0 (currentSlot slotsPerEpoch slotDuration : Nat) (windowSec : ℚ)
    (useMevBundle : Bool) (relayAccepted : List Bool) (directEarnedPos : Bool) :
    TryFlushResult :=
  if slotsPerEpoch = 0 then ⟨false, false⟩
  else if (((currentSlot % slotsPerEpoch) * slotDuration : Nat) : ℚ) > windowSec then
    ⟨false, false⟩
  else if useMevBundle then ⟨true, true⟩
  else ⟨true, directEarnedPos⟩

/-! ## Claim C7 -/

/-- C7 counterexample: with all 7 relays rejecting, `successCount = 0`, yet
the MEV path of `tryFlush` (in-window read: slot 0, 32 slots per epoch, 12 s
slots, window 7) still returns `true` — the overall outcome does not require
any relay to accept. -/
theorem C7_counterexample :
    sendBundleSuccessCount [false, false, false, false, false, false, false] = 0
    ∧ (tryFlushP0 0 32 12 7 true
        [false, false, false, false, false, false, false] false).result = true := by
  constructor
  · rfl
  · norm_num [tryFlushP0]

/-- C7 amended: each relay outcome is collected independently and
`successCount` equals the number of accepting relays, but the bundle path's
overall result is `true` whenever the bundle was dispatched, regardless of the
relay acceptances — even `0` of `N` acceptances reports success. -/
theorem C7_amended (relays : List Bool) (b : Bool) (slot spe sd : Nat)
    (w : ℚ) (rs1 rs2 : List Bool) (d : Bool) :
    sendBundleSuccessCount relays = relays.count true
    ∧ sendBundleSuccessCount (b :: relays)
        = (if b then 1 else 0) + sendBundleSuccessCount relays
    ∧ tryFlushP0 slot spe sd w true rs1 d = tryFlushP0 slot spe sd w true rs2 d
    ∧ (spe ≠ 0 → ¬ ((((slot % spe) * sd : Nat) : ℚ) > w) →
        (tryFlushP0 slot spe sd w true rs1 d).dispatched = true
        ∧ (tryFlushP0 slot spe sd w true rs1 d).result = true) := by
  refine ⟨?_, ?_, rfl, ?_⟩
  · induction relays with
    | nil => rfl
    | cons a l ih =>
        cases a <;>
          simpa [sendBundleSuccessCount, List.filter_cons, List.count_cons] using ih
  · cases b <;> simp [sendBundleSuccessCount, List.filter_cons] <;> omega
  · intro h1 h2
    rw [tryFlushP0, if_neg h1, if_neg h2, if_pos rfl]
    exact ⟨rfl, rfl⟩

/-- Witness for C7 amended: 3 of 7 relays accepting yields `successCount = 3`,
and an in-window MEV dispatch reports `dispatched`. -/
theorem C7_amended_witness :
    sendBundleSuccessCount [true, false, true, false, true, false, false]
      = List.count true [true, false, true, false, true, false, false]
    ∧ ((32 : Nat) ≠ 0 ∧ ¬ ((((0 % 32) * 12 : Nat) : ℚ) > 7))
    ∧ (tryFlushP0 0 32 12 7 true [] false).dispatched = true :=
  ⟨(C7_amended [true, false, true, false, true, false, false] true 0 32 12 7
      [] [] false).1,
   ⟨by norm_num, by norm_num⟩,
   ((C7_amended [] true 0 32 12 7 [] [] false).2.2.2
      (by norm_num) (by norm_num)).1⟩

/-! ## The claim sequencer (`autoClaim`) -/

/-- `MAX_REWARD_TO_CLAIM`: 1000 tokens with 18 decimals, in all variants. -/
def MAX_REWARD_TO_CLAIM : Nat := 1000 * 10 ^ 18

/-- Outcome of one `autoClaim` invocation. -/
inductive ClaimOutcome
  | claimed
  | warned
  | skipped
  | noop
deriving DecidableEq, Repr

/-- `autoClaim` of `java.mjs` (lines 152–167): claims when
`0 < rewards ≤ ceiling`, warns when `rewards > ceiling`, otherwise no-op. -/
def autoClaimJava (rewards ceiling : Nat) : ClaimOutcome :=
  if 0 < rewards ∧ rewards ≤ ceiling then .claimed
  else if ceiling < rewards then .warned
  else .noop

/-- `autoClaim` of the slot variants (`part_000` lines 262–300, `part_001`
lines 154–169): first returns early unless `isRewardsClaimable` reports true;
claims when `0 < rewards ≤ ceiling`; there is no warning branch — an
over-ceiling balance is skipped silently. -/
def autoClaimSlot (isClaimable : Bool) (rewards ceiling : Nat) : ClaimOutcome :=
  if !isClaimable then .skipped
  else if 0 < rewards ∧ rewards ≤ ceiling then .claimed
  else .noop

/-! ## Claim C8 -/

/-- C8 counterexample: in the slot variants, a balance of `ClaimCeiling + 1`
is a silent no-op — no warning outcome is surfaced, contrary to the claim's
"in every variant of the claim path". -/
theorem C8_counterexample :
    autoClaimSlot true (MAX_REWARD_TO_CLAIM + 1) MAX_REWARD_TO_CLAIM
      = ClaimOutcome.noop
    ∧ ClaimOutcome.noop ≠ ClaimOutcome.warned := by
  constructor
  · norm_num [autoClaimSlot]
  · decide

/-- C8 amended: in every variant a zero balance performs no claim and a claim
is dispatched only if `0 < balance ≤ ClaimCeiling`; the genesis variant
(`java.mjs`) claims exactly iff `0 < balance ≤ ClaimCeiling` and warns iff
`balance > ClaimCeiling`, while the slot variants additionally require
`isRewardsClaimable` and never surface a warning — an over-ceiling balance is
skipped silently. -/
theorem C8_amended (b c : Nat) (claimable : Bool) :
    (autoClaimJava b c = .claimed ↔ 0 < b ∧ b ≤ c)
    ∧ (autoClaimJava b c = .warned ↔ c < b)
    ∧ autoClaimJava 0 c = .noop
    ∧ (autoClaimSlot claimable b c = .claimed ↔ claimable = true ∧ 0 < b ∧ b ≤ c)
    ∧ autoClaimSlot claimable b c ≠ .warned
    ∧ autoClaimSlot claimable 0 c ≠ .claimed := by
  refine ⟨?_, ?_, ?_, ?_, ?_, ?_⟩
  · by_cases h : 0 < b ∧ b ≤ c
    · simp [autoClaimJava, h]
    · by_cases h2 : c < b <;> simp [autoClaimJava, h, h2]
  · by_cases h : 0 < b ∧ b ≤ c
    · simp [autoClaimJava, h]
    · by_cases h2 : c < b <;> simp [autoClaimJava, h, h2]
  · simp [autoClaimJava]
  · cases claimable
    · simp [autoClaimSlot]
    · by_cases h : 0 < b ∧ b ≤ c <;> simp [autoClaimSlot, h]
  · cases claimable
    · simp [autoClaimSlot]
    · by_cases h : 0 < b ∧ b ≤ c <;> simp [autoClaimSlot, h]
  · cases claimable
    · simp [autoClaimSlot]
    · simp [autoClaimSlot]

/-- Witness for C8 amended at the ceiling constant: a balance of
`ClaimCeiling + 1` warns in the genesis variant and silently skips in the slot
variants; a balance of 5 claims in both. -/
theorem C8_amended_witness :
    autoClaimJava (MAX_REWARD_TO_CLAIM + 1) MAX_REWARD_TO_CLAIM
      = ClaimOutcome.warned
    ∧ autoClaimSlot true (MAX_REWARD_TO_CLAIM + 1) MAX_REWARD_TO_CLAIM
        ≠ ClaimOutcome.warned
    ∧ autoClaimJava 5 MAX_REWARD_TO_CLAIM = ClaimOutcome.claimed
    ∧ autoClaimSlot true 5 MAX_REWARD_TO_CLAIM = ClaimOutcome.claimed :=
  ⟨(C8_amended (MAX_REWARD_TO_CLAIM + 1) MAX_REWARD_TO_CLAIM true).2.1.mpr
      (by norm_num),
   (C8_amended (MAX_REWARD_TO_CLAIM + 1) MAX_REWARD_TO_CLAIM true).2.2.2.2.1,
   (C8_amended 5 MAX_REWARD_TO_CLAIM true).1.mpr
      (by norm_num [MAX_REWARD_TO_CLAIM]),
   (C8_amended 5 MAX_REWARD_TO_CLAIM true).2.2.2.1.mpr
      (by norm_num [MAX_REWARD_TO_CLAIM])⟩

/-! ## The fee estimator (`getGasConfig` in `java.mjs`, strategy `auto`) -/

/-- A priority/max fee pair in wei. -/
structure GasConfig where
  maxPriorityFeePerGas : Nat
  maxFeePerGas : Nat
deriving DecidableEq, Repr

/-- The `auto` (network-default) path of `getGasConfig` (`java.mjs` lines
31–79): base values default to 1 gwei priority / 2 gwei max fee and are
overwritten by any non-null network-reported value (including zero); then, if
the network's `maxFeePerGas` was null or the base max fee is zero and a legacy
`gasPrice` is present, the max fee becomes the gas price and the priority fee
becomes half of it — overwriting any reported priority value. -/
def getGasConfigAuto (maxPrio maxFee gasPrice : Option Nat) : GasConfig :=
  let baseMaxPriority := maxPrio.getD 1000000000
  let baseMaxFee := maxFee.getD 2000000000
  if (maxFee = none ∨ baseMaxFee = 0) ∧ gasPrice.isSome then
    match gasPrice with
    | some g => ⟨g / 2, g⟩
    | none => ⟨baseMaxPriority, baseMaxFee⟩
  else ⟨baseMaxPriority, baseMaxFee⟩

/-! ## Claim C9 -/

/-- C9 counterexample: a non-null, nonzero reported priority fee (5 gwei) is
not passed through when `maxFeePerGas` is null and a legacy gas price (4 gwei)
is present — the legacy path overwrites the priority to `gasPrice / 2 =
2 gwei`, contrary to the claim that non-null nonzero values pass through
unchanged for both fields. -/
theorem C9_counterexample :
    getGasConfigAuto (some 5000000000) none (some 4000000000)
      = ⟨2000000000, 4000000000⟩
    ∧ (2000000000 : Nat) ≠ 5000000000 := by
  constructor
  · norm_num [getGasConfigAuto]
  · norm_num

/-- C9 amended: a non-null reported value (including zero) passes through
unless the legacy path triggers; null falls back to the 1 gwei / 2 gwei
defaults; the legacy path triggers exactly when `maxFeePerGas` is null or
zero and a gas price is present, and it then sets the max fee to the gas price
and the priority fee to `gasPrice / 2`, overwriting even a reported nonzero
priority; a zero max fee with no gas price stays zero. -/
theorem C9_amended (mp gp : Option Nat) (p f g : Nat) :
    (f ≠ 0 → getGasConfigAuto (some p) (some f) gp = ⟨p, f⟩)
    ∧ getGasConfigAuto none none none = ⟨1000000000, 2000000000⟩
    ∧ getGasConfigAuto mp none (some g) = ⟨g / 2, g⟩
    ∧ getGasConfigAuto mp (some 0) (some g) = ⟨g / 2, g⟩
    ∧ getGasConfigAuto mp (some f) none = ⟨mp.getD 1000000000, f⟩ := by
  refine ⟨?_, ?_, ?_, ?_, ?_⟩
  · intro hf
    simp [getGasConfigAuto, hf]
  · simp [getGasConfigAuto]
  · simp [getGasConfigAuto]
  · simp [getGasConfigAuto]
  · simp [getGasConfigAuto]

/-- Witness for C9 amended: a reported 7 wei priority / 3 gwei max fee pair
passes through unchanged even with a gas price present. -/
theorem C9_amended_witness :
    (3000000000 : Nat) ≠ 0
    ∧ getGasConfigAuto (some 7) (some 3000000000) (some 4000000000)
        = ⟨7, 3000000000⟩ :=
  ⟨by norm_num,
   (C9_amended (some 7) (some 4000000000) 7 3000000000 0).1 (by norm_num)⟩

/-! ## Claim C10 -/

/-- C10: in the slot-model variant (`part_000`), every `tryFlush` invocation
re-reads the on-chain clock and returns `false` without dispatching anything
whenever the fresh `secondsIntoEpoch` exceeds the configured window — in both
the MEV and direct paths; and a preemptive (`pre` / `local-pre`) fire still
advances `firedMark` to the target epoch in the caller even though the
submission returned `false` and dispatched nothing. -/
theorem C10_submit_gate (slot spe sd : Nat) (w : ℚ) (useMev : Bool)
    (rs : List Bool) (d : Bool) (p : ℚ) (v : TickView) (mark : Int)
    (hspe : spe ≠ 0)
    (hlate : (((slot % spe) * sd : Nat) : ℚ) > w) :
    tryFlushP0 slot spe sd w useMev rs d = ⟨false, false⟩
    ∧ ((flushDecision .pre w p v mark).shouldFlush = true →
        runTick .pre w p v false mark
          = (flushDecision .pre w p v mark).targetEpoch)
    ∧ ((flushDecision .localPre w p v mark).shouldFlush = true →
        runTick .localPre w p v false mark
          = (flushDecision .localPre w p v mark).targetEpoch) := by
  refine ⟨?_, ?_, ?_⟩
  · rw [tryFlushP0, if_neg hspe, if_pos hlate]
  · intro h
    simp [runTick, h]
  · intro h
    simp [runTick, h]

/-- Witness for C10: a fresh read 372 s into the epoch (slot 31, 12 s slots,
32 slots per epoch) with window 7 s dispatches nothing and returns `false`;
a concrete `pre` fire (5 s lead, 5 s left in epoch 7) still moves the mark
to 8. -/
theorem C10_submit_gate_witness :
    ((32 : Nat) ≠ 0 ∧ ((((31 % 32) * 12 : Nat) : ℚ) > 7))
    ∧ tryFlushP0 31 32 12 7 true [] false = ⟨false, false⟩
    ∧ runTick .pre 7 5 ⟨7, 95, 100, 7, 95, 5⟩ false (-1) = 8 := by
  have h := C10_submit_gate 31 32 12 7 true [] false 5
    ⟨7, 95, 100, 7, 95, 5⟩ (-1) (by norm_num) (by norm_num)
  have hfire : (flushDecision .pre 7 5 ⟨7, 95, 100, 7, 95, 5⟩ (-1)).shouldFlush
      = true := by norm_num [flushDecision]
  refine ⟨⟨by norm_num, by norm_num⟩, h.1, ?_⟩
  rw [h.2.1 hfire]
  norm_num [flushDecision]

end AztecFlush
